import Mathlib

/-!
Verification of the AI Stock Insights backend (src/main.py): the
historical-price fetch and parse pipeline (fetch_historical_prices),
the rule-based analyzer (generate_ai_insights), and the favorites
listing filter (list_favorites).

Modelling conventions:
- Python floats are modelled as exact rationals.
- Python exceptions are modelled with Except / Option: the two
  HTTPException(404) raises are the notFound and noData errors, and any
  uncaught Python exception (KeyError, IndexError, ValueError,
  ZeroDivisionError) is the pyError outcome.
- String processing is modelled on the underlying character lists, so
  that every definition evaluates on concrete inputs.
-/

namespace StockInsights

/-- One parsed daily price bar: the dict with keys
date/open/high/low/close/volume built in fetch_historical_prices. -/
structure PriceBar where
  date : String
  open_ : ℚ
  high : ℚ
  low : ℚ
  close : ℚ
  volume : ℕ
  deriving Repr, DecidableEq

/-- The response model AIAnalysisResponse of src/main.py. -/
structure AIAnalysisResponse where
  symbol : String
  summary : String
  outlook : String
  risk_score : ℚ
  key_points : List String
  deriving Repr, DecidableEq

/-- Failure outcomes of the pipeline: notFound is
HTTPException(404, "Symbol not found or data unavailable"), noData is
HTTPException(404, "No price data available"), and pyError is an uncaught
Python exception escaping fetch_historical_prices or
generate_ai_insights. -/
inductive ApiError where
  | notFound
  | noData
  | pyError
  deriving Repr, DecidableEq

/-- Modelled builtin: str.strip() with no argument, removing leading and
trailing whitespace from a character list. -/
def pyStrip (cs : List Char) : List Char :=
  (((cs.dropWhile Char.isWhitespace).reverse).dropWhile Char.isWhitespace).reverse

/-- Modelled builtin: str.split(sep) for a one-character separator, as used
with separators "\n" and ",".  Like Python, it never drops empty pieces and
splits the empty string into one empty piece. -/
def pySplit (sep : Char) : List Char → List (List Char)
  | [] => [[]]
  | c :: rest =>
    if c = sep then [] :: pySplit sep rest
    else
      match pySplit sep rest with
      | [] => [[c]]
      | g :: gs => (c :: g) :: gs

/-- Helper for pyFloat and the Volume field: the natural number denoted by
a list of decimal digit characters, as computed by int(s). -/
def digitsToNat (cs : List Char) : ℕ :=
  cs.foldl (fun a c => a * 10 + (c.toNat - 48)) 0

/-- Helper for pyFloat: parse an unsigned decimal literal, integer digits
with an optional fractional part. -/
def parseUnsigned (cs : List Char) : Option ℚ :=
  let ip := cs.takeWhile Char.isDigit
  let rest := cs.dropWhile Char.isDigit
  match rest with
  | [] => if ip.isEmpty then none else some (digitsToNat ip : ℚ)
  | '.' :: fp =>
      if fp.all Char.isDigit && (!ip.isEmpty || !fp.isEmpty) then
        some ((digitsToNat ip : ℚ) + (digitsToNat fp : ℚ) / (10 : ℚ) ^ fp.length)
      else none
  | _ => none

/-- Modelled builtin: float(s) restricted to plain decimal literals
(optional sign, integer digits, optional fractional digits), the shape the
upstream CSV produces.  Anything float() rejects, such as a non-numeric
field value, yields none, modelling the ValueError raised there. -/
def pyFloat (cs : List Char) : Option ℚ :=
  match cs with
  | '-' :: rest => (parseUnsigned rest).map Neg.neg
  | '+' :: rest => parseUnsigned rest
  | _ => parseUnsigned cs

/-- The float conversion of a CSV field inside the row dict: a failed
conversion is the uncaught ValueError outcome. -/
def pyFloatE (cs : List Char) : Except ApiError ℚ :=
  match pyFloat cs with
  | some q => .ok q
  | none => .error .pyError

/-- Modelled builtin: str.isdigit() restricted to ASCII digits, the only
digits the upstream CSV produces. -/
def pyIsDigit (cs : List Char) : Bool :=
  !cs.isEmpty && cs.all Char.isDigit

/-- The dict idx built from the header line by
idx = (a dict mapping each header name h to its position i); as in a
Python dict comprehension, a later duplicate key overwrites an earlier
one, so the last index wins. -/
def dictIdx (header : List (List Char)) (k : List Char) : Option ℕ :=
  match header with
  | [] => none
  | h :: rest =>
    match dictIdx rest k with
    | some i => some (i + 1)
    | none => if h == k then some 0 else none

/-- The subscript parts[idx[k]] inside the row dict: a missing column name
is a KeyError and an out-of-range index an IndexError, both uncaught. -/
def getField (header parts : List (List Char)) (k : List Char) :
    Except ApiError (List Char) :=
  match dictIdx header k with
  | none => .error .pyError
  | some i =>
    match parts[i]? with
    | none => .error .pyError
    | some s => .ok s

/-- One iteration of the row loop of fetch_historical_prices (lines 81-92):
split the line on commas, silently skip it when fewer than 6 fields are
present (ok none), otherwise build the bar dict, field by field in source
order, propagating any uncaught conversion or lookup error. -/
def parseRow (header : List (List Char)) (line : List Char) :
    Except ApiError (Option PriceBar) :=
  let parts := pySplit ',' line
  if parts.length < 6 then .ok none
  else do
    let dateS ← getField header parts "Date".data
    let openS ← getField header parts "Open".data
    let o ← pyFloatE openS
    let highS ← getField header parts "High".data
    let h ← pyFloatE highS
    let lowS ← getField header parts "Low".data
    let l ← pyFloatE lowS
    let closeS ← getField header parts "Close".data
    let c ← pyFloatE closeS
    let volS ← getField header parts "Volume".data
    let v : ℕ := if pyIsDigit volS then digitsToNat volS else 0
    pure (some { date := String.mk dateS, open_ := o, high := h, low := l,
                 close := c, volume := v })

/-- The row loop over all data lines: bars accumulate in input order; the
first uncaught row error aborts the whole parse. -/
def parseRows (header : List (List Char)) : List (List Char) →
    Except ApiError (List PriceBar)
  | [] => .ok []
  | line :: rest =>
    match parseRow header line with
    | .error e => .error e
    | .ok none => parseRows header rest
    | .ok (some bar) =>
      match parseRows header rest with
      | .error e => .error e
      | .ok bars => .ok (bar :: bars)

/-- The lines of the response body: r.text.strip().split("\n"). -/
def csvLines (text : String) : List (List Char) :=
  pySplit '\n' (pyStrip text.data)

/-- The header columns: lines[0].split(","). -/
def csvHeader (text : String) : List (List Char) :=
  pySplit ',' ((csvLines text).headD [])

/-- The data lines: lines[1:]. -/
def csvBody (text : String) : List (List Char) :=
  (csvLines text).tail

/-- The CSV parsing part of fetch_historical_prices (lines 77-95): parse
every data row; if no valid bar results, raise the 404 "No price data
available"; otherwise return the last 200 bars (data[-200:]). -/
def parseCSV (text : String) : Except ApiError (List PriceBar) :=
  match parseRows (csvHeader text) (csvBody text) with
  | .error e => .error e
  | .ok data =>
    if data.isEmpty then .error .noData
    else .ok (data.drop (data.length - 200))

/-- The upstream HTTP response as seen by fetch_historical_prices: a
status code and a body. -/
structure HttpResponse where
  status_code : ℕ
  text : String
  deriving Repr, DecidableEq

/-- The HTML-document-marker test r.text.startswith("<!DOCTYPE"). -/
def isHtmlStart (t : String) : Bool :=
  "<!DOCTYPE".data.isPrefixOf t.data

/-- The response validation of fetch_historical_prices (lines 74-75):
raise the 404 "Symbol not found or data unavailable" when the status code
differs from 200, the body is empty, or the body starts with the HTML
document marker. -/
def fetch_check (r : HttpResponse) : Except ApiError Unit :=
  if r.status_code != 200 || r.text.data.isEmpty || isHtmlStart r.text then
    .error .notFound
  else .ok ()

/-- fetch_historical_prices (lines 71-95), taking the upstream response as
input: validate the response, then parse its body. -/
def fetch_historical_prices (r : HttpResponse) : Except ApiError (List PriceBar) :=
  match fetch_check r with
  | .error _ => .error .notFound
  | .ok _ => parseCSV r.text

/-- The close extraction closes = (the close field of each price), line 105. -/
def closesOf (prices : List PriceBar) : List ℚ :=
  prices.map PriceBar.close

/-- The Python slice closes[-n:]: the last min(n, length) elements. -/
def lastN (n : ℕ) (closes : List ℚ) : List ℚ :=
  closes.drop (closes.length - n)

/-- recent = closes[-1], line 112 (used with at least 10 closes). -/
def recentClose (closes : List ℚ) : ℚ :=
  closes.getLastD 0

/-- ma20 = sum(closes[-20:]) / min(20, len(closes)), line 113. -/
def ma20 (closes : List ℚ) : ℚ :=
  (lastN 20 closes).sum / ((min 20 closes.length : ℕ) : ℚ)

/-- ma50 = sum(closes[-50:]) / min(50, len(closes)), line 114. -/
def ma50 (closes : List ℚ) : ℚ :=
  (lastN 50 closes).sum / ((min 50 closes.length : ℕ) : ℚ)

/-- The denominator closes[-30] of change_30: with n elements and n at
least 31 this is the element at index n - 30, which lies 29 positions
before the most recent close. -/
def c30den (closes : List ℚ) : ℚ :=
  closes.getD (closes.length - 30) 0

/-- change_30 = (recent - closes[-30]) / closes[-30] if len(closes) >= 31
else 0, line 115.  The value is only consumed when the denominator is
nonzero (a zero denominator makes the analyzer raise instead, see
generate_ai_insights), where rational and Python float division agree. -/
def change_30 (closes : List ℚ) : ℚ :=
  if 31 ≤ closes.length then
    (recentClose closes - c30den closes) / c30den closes
  else 0

/-- volatility = (max(closes[-20:]) - min(closes[-20:])) / ma20 if ma20
else 0, line 116: a zero (falsy) ma20 short-circuits to 0. -/
def volatility (closes : List ℚ) : ℚ :=
  if ma20 closes = 0 then 0
  else (((lastN 20 closes).max?.getD 0) - ((lastN 20 closes).min?.getD 0)) / ma20 closes

/-- trend, line 118: "Uptrend" if ma20 > ma50 else "Downtrend" if
ma20 < ma50 else "Sideways". -/
def trendOf (closes : List ℚ) : String :=
  if ma20 closes > ma50 closes then "Uptrend"
  else if ma20 closes < ma50 closes then "Downtrend"
  else "Sideways"

/-- risk = min(1.0, max(0.05, volatility)), line 119. -/
def riskOf (closes : List ℚ) : ℚ :=
  min 1 (max (1/20) (volatility closes))

/-- outlook, line 120: "Bullish" if change_30 > 0.05 and trend ==
"Uptrend" else "Bearish" if change_30 < -0.05 and trend == "Downtrend"
else "Neutral". -/
def outlookOf (closes : List ℚ) : String :=
  if change_30 closes > 1/20 ∧ trendOf closes = "Uptrend" then "Bullish"
  else if change_30 closes < -(1/20) ∧ trendOf closes = "Downtrend" then "Bearish"
  else "Neutral"

/-- Rounding to two decimal places, modelling round(risk, 2) on line 134.
Python rounds half to even on binary floats; we round half up, which
agrees on every value these claims exercise (the tie cases differ only on
exact multiples of 1/200). -/
def round2 (q : ℚ) : ℚ :=
  ((⌊q * 100 + 1/2⌋ : ℤ) : ℚ) / 100

/-- Fixed-precision rendering of a rational, modelling the format
specifiers :.2f and :.1f used in the key points and summary strings. -/
def fmtFixed (digits : ℕ) (q : ℚ) : String :=
  let scaled : ℤ := ⌊q * (10 : ℚ) ^ digits + 1/2⌋
  let sign := if scaled < 0 then "-" else ""
  let m := scaled.natAbs
  let base := 10 ^ digits
  let fracStr := toString (m % base)
  sign ++ toString (m / base) ++ "." ++
    String.mk (List.replicate (digits - fracStr.length) '0') ++ fracStr

/-- The five formatted key point lines, lines 121-127. -/
def keyPoints (closes : List ℚ) : List String :=
  ["20-day MA: " ++ fmtFixed 2 (ma20 closes),
   "50-day MA: " ++ fmtFixed 2 (ma50 closes),
   "30-day change: " ++ fmtFixed 1 (change_30 closes * 100) ++ "%",
   "Trend: " ++ trendOf closes,
   "Volatility score: " ++ fmtFixed 2 (volatility closes)]

/-- The summary sentence, line 128. -/
def summaryOf (symbol : String) (closes : List ℚ) : String :=
  symbol.toUpper ++ " shows a " ++ (trendOf closes).toLower ++ " with a " ++
    fmtFixed 1 (change_30 closes * 100) ++ "% move over 30 days."

/-- generate_ai_insights (lines 104-136).  With fewer than 10 closes it
short-circuits to the fixed insufficient-data response (risk 0.5, rounded
at construction like every risk value).  Otherwise it computes the
indicators and builds the response; the one failure the Python code can
hit there is the ZeroDivisionError of change_30 when at least 31 closes
exist and closes[-30] is zero, modelled as none. -/
def generate_ai_insights (symbol : String) (prices : List PriceBar) :
    Option AIAnalysisResponse :=
  let closes := closesOf prices
  if closes.length < 10 then
    some { symbol := symbol.toUpper,
           summary := "Not enough data to analyze.",
           outlook := "Neutral",
           risk_score := round2 (1/2),
           key_points := ["Collect more history for better insights."] }
  else if 31 ≤ closes.length ∧ c30den closes = 0 then
    none
  else
    some { symbol := symbol.toUpper,
           summary := summaryOf symbol closes,
           outlook := outlookOf closes,
           risk_score := round2 (riskOf closes),
           key_points := keyPoints closes }

/-- The date characters of each bar, in order. -/
def datesOf (bars : List PriceBar) : List (List Char) :=
  bars.map (fun b => b.date.data)

/-- A document of the favorites collection: a flat field-to-value record,
sufficient to express the favorites listing behaviour. -/
abbrev Doc : Type := List (String × String)

/-- The ObjectId-to-str rename of list_favorites (lines 155-157): when an
internal identifier field is present, remove it and append its value under
the key id. -/
def renameId (d : Doc) : Doc :=
  match d.lookup "_id" with
  | some v => (List.filter (fun kv => kv.1 != "_id") d) ++ [("id", v)]
  | none => d

/-- filter_q (line 152): a dict with an equality filter on user_id when
user_id is truthy, the empty dict when user_id is None or the empty
string. -/
def filter_q (user_id : Option String) : List (String × String) :=
  match user_id with
  | some uid => if uid = "" then [] else [("user_id", uid)]
  | none => []

/-- Modelled from the spec: the document-store collaborator operation
query(collection, filter, limit) of database.py, which is not under src/.
Following the spec (sections 1 and 6), it returns the stored documents
matching every key-value pair of the equality filter, up to the limit. -/
def get_documents (store : List Doc) (_collection : String)
    (filterq : List (String × String)) (limit : ℕ) : List Doc :=
  (store.filter (fun d => filterq.all (fun kv => List.contains d kv))).take limit

/-- list_favorites (lines 150-158), parameterized by the document-store
query operation: build filter_q from the optional user_id, query the
stockfavorite collection with limit 100, and rename each internal
identifier to a string id field. -/
def list_favorites (store_query : String → List (String × String) → ℕ → List Doc)
    (user_id : Option String) : List Doc :=
  let docs := store_query "stockfavorite" (filter_q user_id) 100
  docs.map renameId

/-- A price bar carrying a given close, for building analyzer inputs. -/
def mkBar (c : ℚ) : PriceBar :=
  { date := "", open_ := c, high := c, low := c, close := c, volume := 0 }

/-- Analyzer input bars with the given closes. -/
def mkBars (closes : List ℚ) : List PriceBar :=
  closes.map mkBar

end StockInsights

deriving instance DecidableEq for Except

namespace StockInsights

/-- Upstream body used for the C3 counterexample: a proper header, two
data rows with 6 fields each, dates in decreasing order. -/
def c3text : String :=
  "Date,Open,High,Low,Close,Volume\n2020-01-02,1,2,1,1,100\n2020-01-01,1,2,1,1,100"

/-- Upstream body used for the C3 witness: same shape, dates increasing. -/
def w3text : String :=
  "Date,Open,High,Low,Close,Volume\n2020-01-01,1,2,1,1,100\n2020-01-02,1,2,1,2,100"

/-- The dates of the w3text rows, in input order. -/
def w3dates : List (List Char) :=
  ["2020-01-01".data, "2020-01-02".data]

/-- Upstream body used for C9: one data row with 6 fields whose Open
field is not numeric. -/
def c9text : String :=
  "Date,Open,High,Low,Close,Volume\n2024-01-02,abc,2,3,4,500"

/-- Response used for the C4 counterexample: success-family status 201
with a non-empty, non-HTML CSV body. -/
def r201 : HttpResponse :=
  { status_code := 201, text := "Date,Open,High,Low,Close,Volume" }

/-- Response used for the C4 witness: status exactly 200 with the same
body. -/
def r200 : HttpResponse :=
  { status_code := 200, text := "Date,Open,High,Low,Close,Volume" }

/-- Modelled from the spec, for comparison with fetch_check: the failure
condition as the specification words it, a non-2xx status, an empty body,
or a body beginning with the HTML document marker. -/
def fetch_fails_spec (r : HttpResponse) : Prop :=
  ¬(200 ≤ r.status_code ∧ r.status_code ≤ 299) ∨ r.text = "" ∨ isHtmlStart r.text = true

/-- 31 closes with close[0] = 100, close[1] = 200, most recent 110, and
the last twenty at 110 so that ma20 > ma50 (Uptrend). -/
def c1cxCloses : List ℚ :=
  [100, 200, 1, 1, 1, 1, 1, 1, 1, 1, 1,
   110, 110, 110, 110, 110, 110, 110, 110, 110, 110,
   110, 110, 110, 110, 110, 110, 110, 110, 110, 110]

/-- 31 closes with close[1] = 100 and most recent 110, in an Uptrend. -/
def wBullCloses : List ℚ :=
  [100, 100, 1, 1, 1, 1, 1, 1, 1, 1, 1,
   110, 110, 110, 110, 110, 110, 110, 110, 110, 110,
   110, 110, 110, 110, 110, 110, 110, 110, 110, 110]

/-- 31 closes whose close[1], the closes[-30] denominator, is zero. -/
def c2cxCloses : List ℚ :=
  [100, 0, 1, 1, 1, 1, 1, 1, 1, 1, 1,
   110, 110, 110, 110, 110, 110, 110, 110, 110, 110,
   110, 110, 110, 110, 110, 110, 110, 110, 110, 110]

/-- Ten closes summing to zero, so that ma20 = 0. -/
def w5closes : List ℚ := [1, -1, 1, -1, 1, -1, 1, -1, 1, -1]

/-- Nine identical closes, below the ten-close threshold. -/
def w6closes : List ℚ := [100, 100, 100, 100, 100, 100, 100, 100, 100]

/-- Ten identical closes: enough history for the indicator path but
fewer than the 31 closes change_30 requires. -/
def w8closes : List ℚ := [100, 100, 100, 100, 100, 100, 100, 100, 100, 100]

end StockInsights

namespace StockInsights

/-- Rounding to two decimals is monotone. -/
theorem round2_mono {a b : ℚ} (h : a ≤ b) : round2 a ≤ round2 b := by
  unfold round2
  have hf : (⌊a * 100 + 1/2⌋ : ℤ) ≤ ⌊b * 100 + 1/2⌋ := Int.floor_le_floor (by linarith)
  have hq : ((⌊a * 100 + 1/2⌋ : ℤ) : ℚ) ≤ ((⌊b * 100 + 1/2⌋ : ℤ) : ℚ) := by exact_mod_cast hf
  linarith

/-- The lower clamp bound is a fixed point of round2. -/
theorem round2_low : round2 (1/20) = 1/20 := by norm_num [round2]

/-- The upper clamp bound is a fixed point of round2. -/
theorem round2_one : round2 1 = 1 := by norm_num [round2]

/-- The trend string is Uptrend exactly when ma20 exceeds ma50. -/
theorem trendOf_up_iff (closes : List ℚ) :
    trendOf closes = "Uptrend" ↔ ma20 closes > ma50 closes := by
  unfold trendOf
  by_cases h : ma20 closes > ma50 closes
  · simp [h]
  · rw [if_neg h]
    by_cases h2 : ma20 closes < ma50 closes
    · rw [if_pos h2]
      exact ⟨fun hs => absurd hs (by decide), fun hgt => absurd hgt h⟩
    · rw [if_neg h2]
      exact ⟨fun hs => absurd hs (by decide), fun hgt => absurd hgt h⟩

/-- The trend string is Downtrend exactly when ma20 is below ma50. -/
theorem trendOf_down_iff (closes : List ℚ) :
    trendOf closes = "Downtrend" ↔ ma20 closes < ma50 closes := by
  unfold trendOf
  by_cases h : ma20 closes > ma50 closes
  · rw [if_pos h]
    exact ⟨fun hs => absurd hs (by decide), fun hlt => absurd hlt (not_lt_of_gt h)⟩
  · rw [if_neg h]
    by_cases h2 : ma20 closes < ma50 closes
    · simp [h2]
    · rw [if_neg h2]
      exact ⟨fun hs => absurd hs (by decide), fun hlt => absurd hlt h2⟩

/-- Full case analysis of the outlook string of line 120. -/
theorem outlookOf_cases (closes : List ℚ) :
    (outlookOf closes = "Bullish" ↔
      change_30 closes > 1/20 ∧ ma20 closes > ma50 closes) ∧
    (outlookOf closes = "Bearish" ↔
      change_30 closes < -(1/20) ∧ ma20 closes < ma50 closes) ∧
    (outlookOf closes = "Neutral" ↔
      ¬(change_30 closes > 1/20 ∧ ma20 closes > ma50 closes) ∧
      ¬(change_30 closes < -(1/20) ∧ ma20 closes < ma50 closes)) := by
  unfold outlookOf
  simp only [trendOf_up_iff, trendOf_down_iff]
  by_cases hA : change_30 closes > 1/20 ∧ ma20 closes > ma50 closes
  · have hAB : ¬(change_30 closes < -(1/20) ∧ ma20 closes < ma50 closes) :=
      fun hB => lt_asymm hA.2 hB.2
    rw [if_pos hA]
    exact ⟨iff_of_true rfl hA,
      ⟨fun h => absurd h (by decide), fun h => absurd h hAB⟩,
      ⟨fun h => absurd h (by decide), fun hn => absurd hA hn.1⟩⟩
  · rw [if_neg hA]
    by_cases hB : change_30 closes < -(1/20) ∧ ma20 closes < ma50 closes
    · rw [if_pos hB]
      exact ⟨⟨fun h => absurd h (by decide), fun h => absurd h hA⟩,
        iff_of_true rfl hB,
        ⟨fun h => absurd h (by decide), fun hn => absurd hB hn.2⟩⟩
    · rw [if_neg hB]
      exact ⟨⟨fun h => absurd h (by decide), fun h => absurd h hA⟩,
        ⟨fun h => absurd h (by decide), fun h => absurd h hB⟩,
        iff_of_true rfl ⟨hA, hB⟩⟩

/-- C1, counterexample.  The claim reads change_30 off close[0] for 31
closes; the code uses closes[-30] = closes[1].  Here 31 closes have most
recent close 110, close[0] = 100 and trend Uptrend, yet change_30 is
(110 - 200)/200 = -0.45 rather than 0.10 and the outlook is Neutral, not
Bullish. -/
theorem c1_change30_index_cx :
    (closesOf (mkBars c1cxCloses)).length = 31 ∧
    recentClose (closesOf (mkBars c1cxCloses)) = 110 ∧
    (closesOf (mkBars c1cxCloses)).headD 0 = 100 ∧
    trendOf (closesOf (mkBars c1cxCloses)) = "Uptrend" ∧
    change_30 (closesOf (mkBars c1cxCloses)) = -(9/20) ∧
    ¬ (1:ℚ)/10 = -(9/20) ∧
    (generate_ai_insights "AAPL" (mkBars c1cxCloses)).map AIAnalysisResponse.outlook =
      some "Neutral" ∧
    ¬ (some "Neutral" : Option String) = some "Bullish" := by
  refine ⟨by simp [closesOf, mkBars, c1cxCloses], ?_, by simp [closesOf, mkBars, mkBar, c1cxCloses], ?_, ?_, by norm_num, ?_, by simp⟩
  · norm_num [recentClose, closesOf, mkBars, mkBar, c1cxCloses]
  · norm_num [trendOf, ma20, ma50, lastN, closesOf, mkBars, mkBar, c1cxCloses]
  · norm_num [change_30, recentClose, c30den, closesOf, mkBars, mkBar, c1cxCloses]
  · norm_num [generate_ai_insights, closesOf, mkBars, mkBar, c1cxCloses, c30den, outlookOf,
      trendOf, change_30, recentClose, ma20, ma50, lastN]
    decide

/-- C1, amended.  change_30 compares the most recent close with
closes[-30], the close 29 bars earlier (index n - 30): for every bar list
whose 31 closes end at 110 with closes[1] = 100, change_30 = 0.10, and if
the trend is Uptrend the returned outlook is Bullish. -/
theorem c1_change30_amended (symbol : String) (prices : List PriceBar)
    (h31 : (closesOf prices).length = 31)
    (hlast : recentClose (closesOf prices) = 110)
    (hsecond : (closesOf prices).getD 1 0 = 100) :
    change_30 (closesOf prices) = 1/10 ∧
    (trendOf (closesOf prices) = "Uptrend" →
      (generate_ai_insights symbol prices).map AIAnalysisResponse.outlook = some "Bullish") := by
  have hden : c30den (closesOf prices) = 100 := by
    unfold c30den
    rw [h31]
    simpa using hsecond
  have hc : change_30 (closesOf prices) = 1/10 := by
    unfold change_30
    rw [if_pos (by omega), hlast, hden]
    norm_num
  refine ⟨hc, fun htrend => ?_⟩
  unfold generate_ai_insights
  rw [if_neg (by omega), if_neg (by intro hb; rw [hden] at hb; exact absurd hb.2 (by norm_num))]
  simp [outlookOf, hc, htrend]
  norm_num

/-- C1, witness for the amended claim at a concrete Uptrend input. -/
theorem c1_change30_amended_witness :
    change_30 (closesOf (mkBars wBullCloses)) = 1/10 ∧
    (generate_ai_insights "ACME" (mkBars wBullCloses)).map AIAnalysisResponse.outlook =
      some "Bullish" :=
  ⟨(c1_change30_amended "ACME" (mkBars wBullCloses)
      (by simp [closesOf, mkBars, wBullCloses])
      (by norm_num [recentClose, closesOf, mkBars, mkBar, wBullCloses])
      (by norm_num [closesOf, mkBars, mkBar, wBullCloses])).1,
   (c1_change30_amended "ACME" (mkBars wBullCloses)
      (by simp [closesOf, mkBars, wBullCloses])
      (by norm_num [recentClose, closesOf, mkBars, mkBar, wBullCloses])
      (by norm_num [closesOf, mkBars, mkBar, wBullCloses])).2
      (by norm_num [trendOf, ma20, ma50, lastN, closesOf, mkBars, mkBar, wBullCloses])⟩

/-- C2, counterexample.  The analyzer is not total: with 31 closes whose
closes[-30] is zero, the change_30 division divides by zero
(ZeroDivisionError in Python, the none outcome here), although the list
is well within the guarded length. -/
theorem c2_division_by_zero_cx :
    (closesOf (mkBars c2cxCloses)).length = 31 ∧
    generate_ai_insights "AAPL" (mkBars c2cxCloses) = none := by
  refine ⟨by simp [closesOf, mkBars, c2cxCloses], ?_⟩
  norm_num [generate_ai_insights, closesOf, mkBars, mkBar, c2cxCloses, c30den]

/-- C2, amended.  The analyzer returns a result for every symbol and bar
list except exactly when at least 31 closes exist and closes[-30] is
zero, where the change_30 division raises; the length check alone does
not guard the denominator. -/
theorem c2_analyzer_total_iff (symbol : String) (prices : List PriceBar) :
    generate_ai_insights symbol prices = none ↔
      31 ≤ (closesOf prices).length ∧ c30den (closesOf prices) = 0 := by
  unfold generate_ai_insights
  by_cases h1 : (closesOf prices).length < 10
  · rw [if_pos h1]
    simp
    intro h31
    omega
  · rw [if_neg h1]
    by_cases h2 : 31 ≤ (closesOf prices).length ∧ c30den (closesOf prices) = 0
    · rw [if_pos h2]; simpa using h2
    · rw [if_neg h2]; simpa using h2

/-- C2, witness: the failure characterization applied at the concrete
zero-denominator input. -/
theorem c2_analyzer_total_iff_witness :
    generate_ai_insights "AAPL" (mkBars c2cxCloses) = none :=
  (c2_analyzer_total_iff "AAPL" (mkBars c2cxCloses)).mpr
    ⟨by simp [closesOf, mkBars, c2cxCloses],
     by norm_num [c30den, closesOf, mkBars, mkBar, c2cxCloses]⟩

/-- C3, counterexample.  A valid CSV body (proper header, two data rows
with 6 fields each) whose rows appear in decreasing date order parses
successfully, but the resulting bars are not strictly increasing in date:
the parser preserves input order and never sorts or deduplicates. -/
theorem c3_parse_order_cx :
    ((csvBody c3text).all (fun l => 6 ≤ (pySplit ',' l).length)) = true ∧
    (parseCSV c3text).map datesOf = .ok ["2020-01-02".data, "2020-01-01".data] ∧
    ¬ List.Pairwise (· < ·) ["2020-01-02".data, "2020-01-01".data] := by decide

/-- C3, amended.  A successful parse yields at most 200 bars, and its
output dates are strictly increasing whenever the parsed data rows appear
in strictly increasing date order; the order is inherited from the input,
not enforced. -/
theorem c3_parse_bounded_ordered (text : String)
    (rowDates outDates : List (List Char)) (n : ℕ)
    (hrows : (parseRows (csvHeader text) (csvBody text)).map datesOf = .ok rowDates)
    (hok : (parseCSV text).map (fun bs => (datesOf bs, bs.length)) = .ok (outDates, n)) :
    n ≤ 200 ∧ (List.Pairwise (· < ·) rowDates → List.Pairwise (· < ·) outDates) := by
  unfold parseCSV at hok
  cases hd : parseRows (csvHeader text) (csvBody text) with
  | error e => rw [hd] at hok; simp [Except.map] at hok
  | ok data =>
    rw [hd] at hok
    rw [hd] at hrows
    simp [Except.map] at hok hrows
    by_cases hE : data = []
    · simp [hE] at hok
    · rw [if_neg hE] at hok
      simp at hok
      obtain ⟨hdates, hn⟩ := hok
      subst hdates hrows hn
      have hmap : datesOf (data.drop (data.length - 200)) =
          (datesOf data).drop (data.length - 200) := by
        simp [datesOf]
      constructor
      · simp [List.length_drop]; omega
      · intro hp
        rw [hmap]
        exact List.Pairwise.sublist (List.drop_sublist _ _) hp

/-- C3, witness at a concrete sorted two-row body. -/
theorem c3_parse_bounded_ordered_witness :
    (2 : ℕ) ≤ 200 ∧ List.Pairwise (· < ·) w3dates :=
  ⟨(c3_parse_bounded_ordered w3text w3dates w3dates 2 (by decide) (by decide)).1,
   (c3_parse_bounded_ordered w3text w3dates w3dates 2 (by decide) (by decide)).2 (by decide)⟩

/-- C4, counterexample.  Status 201 is a success-family (2xx) status and
the body is non-empty CSV, so the claim says fetch proceeds to parsing;
the code compares the status to exactly 200 and raises the 404. -/
theorem c4_status_201_cx :
    fetch_check r201 = .error .notFound ∧ ¬ fetch_fails_spec r201 := by
  refine ⟨by decide, ?_⟩
  unfold fetch_fails_spec
  decide

/-- C4, amended.  The fetch step fails with NotFound exactly when the
status differs from 200 (any non-200 status, including other 2xx codes),
the body is empty, or the body starts with the HTML document marker; for
a status of exactly 200 with a non-empty non-HTML body it proceeds to
parsing. -/
theorem c4_fetch_check_characterization (r : HttpResponse) :
    (fetch_check r = .error .notFound ↔
      (r.status_code ≠ 200 ∨ r.text = "" ∨ isHtmlStart r.text = true)) ∧
    ((r.status_code = 200 ∧ r.text ≠ "" ∧ isHtmlStart r.text = false) →
      fetch_historical_prices r = parseCSV r.text) := by
  have hdata : (r.text.data.isEmpty = true) ↔ r.text = "" := by
    rw [List.isEmpty_iff]
    exact ⟨fun h => String.ext (by simpa using h), fun h => by rw [h]⟩
  have hcond : (r.status_code != 200 || r.text.data.isEmpty || isHtmlStart r.text) = true ↔
      (r.status_code ≠ 200 ∨ r.text = "" ∨ isHtmlStart r.text = true) := by
    simp [Bool.or_eq_true, bne_iff_ne, hdata, or_assoc]
  constructor
  · unfold fetch_check
    by_cases hp : r.status_code ≠ 200 ∨ r.text = "" ∨ isHtmlStart r.text = true
    · rw [if_pos (hcond.mpr hp)]
      exact iff_of_true rfl hp
    · rw [if_neg (fun hx => hp (hcond.mp hx))]
      exact ⟨fun h => Except.noConfusion h, fun h => absurd h hp⟩
  · rintro ⟨h1, h2, h3⟩
    unfold fetch_historical_prices fetch_check
    rw [if_neg (fun hx => by
      rcases hcond.mp hx with h | h | h
      · exact h h1
      · exact h2 h
      · rw [h3] at h; cases h)]

/-- C4, witness: a status-200 CSV response proceeds to parsing. -/
theorem c4_fetch_check_characterization_witness :
    fetch_historical_prices r200 = parseCSV r200.text :=
  (c4_fetch_check_characterization r200).2 ⟨by decide, by decide, by decide⟩

end StockInsights

namespace StockInsights

/-- C5.  With at least 10 closes, every risk score the analyzer returns
lies in [0.05, 1.0]; and when ma20 is zero the volatility is defined to
be 0, so the clamp then yields 0.05. -/
theorem c5_risk_score_bounds (symbol : String) (prices : List PriceBar)
    (h : 10 ≤ prices.length) :
    (∀ q ∈ (generate_ai_insights symbol prices).map AIAnalysisResponse.risk_score,
        1/20 ≤ q ∧ q ≤ 1) ∧
    (ma20 (closesOf prices) = 0 → volatility (closesOf prices) = 0) := by
  constructor
  · intro q hq
    unfold generate_ai_insights at hq
    rw [if_neg (by simp [closesOf]; omega)] at hq
    by_cases h2 : 31 ≤ (closesOf prices).length ∧ c30den (closesOf prices) = 0
    · rw [if_pos h2] at hq; simp at hq
    · rw [if_neg h2] at hq
      simp [Option.mem_def] at hq
      subst hq
      have hlow : (1:ℚ)/20 ≤ riskOf (closesOf prices) :=
        le_min (by norm_num) (le_max_left _ _)
      have hhigh : riskOf (closesOf prices) ≤ 1 := min_le_left _ _
      constructor
      · calc (1:ℚ)/20 = round2 (1/20) := round2_low.symm
          _ ≤ round2 (riskOf (closesOf prices)) := round2_mono hlow
      · calc round2 (riskOf (closesOf prices)) ≤ round2 1 := round2_mono hhigh
          _ = 1 := round2_one
  · intro hz
    unfold volatility
    rw [if_pos hz]

/-- C5, witness at ten closes summing to zero, where ma20 = 0 and the
returned risk score is exactly the lower clamp 0.05. -/
theorem c5_risk_score_bounds_witness :
    ((1:ℚ)/20 ≤ 1/20 ∧ (1:ℚ)/20 ≤ 1) ∧ volatility (closesOf (mkBars w5closes)) = 0 :=
  ⟨(c5_risk_score_bounds "ACME" (mkBars w5closes) (by simp [w5closes, mkBars])).1 (1/20)
      (by norm_num [generate_ai_insights, closesOf, mkBars, mkBar, w5closes, c30den, riskOf,
          volatility, ma20, lastN, round2, Option.mem_def]),
   (c5_risk_score_bounds "ACME" (mkBars w5closes) (by simp [w5closes, mkBars])).2
      (by norm_num [closesOf, mkBars, mkBar, w5closes, ma20, lastN])⟩

/-- C6.  With fewer than 10 closes the analyzer returns the fixed
insufficient-data result: fixed summary, Neutral outlook, risk exactly
0.5, and a single key point asking for more history. -/
theorem c6_insufficient_data (symbol : String) (prices : List PriceBar)
    (h : prices.length < 10) :
    generate_ai_insights symbol prices =
      some { symbol := symbol.toUpper,
             summary := "Not enough data to analyze.",
             outlook := "Neutral",
             risk_score := 1/2,
             key_points := ["Collect more history for better insights."] } := by
  unfold generate_ai_insights
  rw [if_pos (by simpa [closesOf] using h)]
  norm_num [round2]

/-- C6, witness at nine identical closes. -/
theorem c6_insufficient_data_witness :
    generate_ai_insights "aapl" (mkBars w6closes) =
      some { symbol := "aapl".toUpper,
             summary := "Not enough data to analyze.",
             outlook := "Neutral",
             risk_score := 1/2,
             key_points := ["Collect more history for better insights."] } :=
  c6_insufficient_data "aapl" (mkBars w6closes) (by simp [w6closes, mkBars])

/-- C7.  With at least 10 closes, the returned outlook is Bullish exactly
when change_30 > 0.05 and ma20 > ma50 (Uptrend), Bearish exactly when
change_30 < -0.05 and ma20 < ma50 (Downtrend), and Neutral exactly
otherwise. -/
theorem c7_outlook_characterization (symbol : String) (prices : List PriceBar)
    (h : 10 ≤ prices.length) :
    ∀ o ∈ (generate_ai_insights symbol prices).map AIAnalysisResponse.outlook,
      (o = "Bullish" ↔
        change_30 (closesOf prices) > 1/20 ∧
          ma20 (closesOf prices) > ma50 (closesOf prices)) ∧
      (o = "Bearish" ↔
        change_30 (closesOf prices) < -(1/20) ∧
          ma20 (closesOf prices) < ma50 (closesOf prices)) ∧
      (o = "Neutral" ↔
        ¬(change_30 (closesOf prices) > 1/20 ∧
            ma20 (closesOf prices) > ma50 (closesOf prices)) ∧
        ¬(change_30 (closesOf prices) < -(1/20) ∧
            ma20 (closesOf prices) < ma50 (closesOf prices))) := by
  intro o ho
  unfold generate_ai_insights at ho
  rw [if_neg (by simp [closesOf]; omega)] at ho
  by_cases h2 : 31 ≤ (closesOf prices).length ∧ c30den (closesOf prices) = 0
  · rw [if_pos h2] at ho; simp at ho
  · rw [if_neg h2] at ho
    simp [Option.mem_def] at ho
    subst ho
    exact outlookOf_cases (closesOf prices)

/-- C7, witness: at the concrete Bullish input the characterization,
instantiated at the returned outlook, certifies both Bullish
conditions. -/
theorem c7_outlook_characterization_witness :
    change_30 (closesOf (mkBars wBullCloses)) > 1/20 ∧
      ma20 (closesOf (mkBars wBullCloses)) > ma50 (closesOf (mkBars wBullCloses)) :=
  ((c7_outlook_characterization "ACME" (mkBars wBullCloses)
      (by simp [wBullCloses, mkBars]) "Bullish"
      (by norm_num [generate_ai_insights, closesOf, mkBars, mkBar, wBullCloses, c30den,
          outlookOf, trendOf, change_30, recentClose, ma20, ma50, lastN,
          Option.mem_def])).1).mp rfl

/-- C8.  With between 10 and 30 closes, change_30 is 0 (the 31-close
branch is not taken), so the outlook is Neutral regardless of trend and
close values. -/
theorem c8_short_history_neutral (symbol : String) (prices : List PriceBar)
    (h1 : 10 ≤ prices.length) (h2 : prices.length ≤ 30) :
    change_30 (closesOf prices) = 0 ∧
    (generate_ai_insights symbol prices).map AIAnalysisResponse.outlook = some "Neutral" := by
  have hlen : (closesOf prices).length = prices.length := by simp [closesOf]
  have hc : change_30 (closesOf prices) = 0 := by
    unfold change_30
    rw [if_neg (by omega)]
  refine ⟨hc, ?_⟩
  unfold generate_ai_insights
  rw [if_neg (by omega), if_neg (by intro hb; omega)]
  simp [outlookOf, hc]
  norm_num

/-- C8, witness at ten identical closes. -/
theorem c8_short_history_neutral_witness :
    change_30 (closesOf (mkBars w8closes)) = 0 ∧
    (generate_ai_insights "msft" (mkBars w8closes)).map AIAnalysisResponse.outlook =
      some "Neutral" :=
  c8_short_history_neutral "msft" (mkBars w8closes)
    (by simp [w8closes, mkBars]) (by simp [w8closes, mkBars])

/-- C9.  Row tolerance only covers short rows: a data row with 6 fields
whose Open field is not numeric makes the parse end in the uncaught
ValueError outcome (pyError), not a silent skip and not one of the two
HTTP 404 errors. -/
theorem c9_bad_numeric_field_errors :
    ((csvBody c9text).length = 1) ∧
    ((csvBody c9text).all (fun l => 6 ≤ (pySplit ',' l).length)) = true ∧
    pyFloat "abc".data = none ∧
    parseCSV c9text = .error .pyError ∧
    ApiError.pyError ≠ ApiError.noData ∧ ApiError.pyError ≠ ApiError.notFound := by decide

/-- C10.  In the favorites listing, an empty-string user_id builds the
same empty filter as an absent user_id, so the store query returns every
stored record (up to the limit of 100) rather than only records whose
user_id is the empty string. -/
theorem c10_empty_user_id_unfiltered
    (store_query : String → List (String × String) → ℕ → List Doc)
    (store : List Doc) :
    list_favorites store_query (some "") = list_favorites store_query none ∧
    filter_q (some "") = filter_q none ∧
    list_favorites (get_documents store) (some "") = (store.take 100).map renameId := by
  refine ⟨rfl, rfl, ?_⟩
  unfold list_favorites get_documents filter_q
  simp

/-- C10, witness: a one-record store whose record has user_id u1 is
returned in full when listing with an empty-string user_id. -/
theorem c10_empty_user_id_unfiltered_witness :
    list_favorites (get_documents [[("user_id", "u1"), ("symbol", "AAPL")]]) (some "") =
      ([[("user_id", "u1"), ("symbol", "AAPL")]].take 100).map renameId :=
  (c10_empty_user_id_unfiltered
    (get_documents [[("user_id", "u1"), ("symbol", "AAPL")]])
    [[("user_id", "u1"), ("symbol", "AAPL")]]).2.2

end StockInsights
